import Mathlib

/-!
Verification of the asynchronous orchestration core of the learning-companion
backend: the spaced-repetition scheduler (`backend/db.py`), the job registry
and background workers (`backend/app.py`), and the diagnostic handoff state
machine (`backend/app.py`, `diagnostic_chat`).

Machine integers are modelled as `Nat`/`Int`; the ease factor and timestamps
(measured in days) are modelled as exact rationals; Python strings are
modelled as `List Char` (ASCII range, which covers every constant the code
manipulates).
-/

namespace LearningCompanion

/-! ## Spaced-repetition scheduler (`backend/db.py`, `update_flashcard_schedule`) -/

/-- Python `round` on a non-negative product: round half to even
(banker's rounding), as CPython's builtin `round` behaves on exact halves. -/
def pyRound (x : ℚ) : ℤ :=
  let f : ℤ := ⌊x⌋
  let r : ℚ := x - f
  if r < 1/2 then f
  else if 1/2 < r then f + 1
  else if f % 2 = 0 then f else f + 1

/-- The schedule fields stored on a flashcard document
(`step`, `interval`, `ease_factor`, `next_review`, `review_count`).
`next_review` is a timestamp measured in days. -/
structure FlashcardSchedule where
  step : ℕ
  interval : ℤ
  ease_factor : ℚ
  next_review : ℚ
  review_count : ℕ
deriving DecidableEq, Repr

/-- The fields `save_flashcard` (`backend/db.py`) writes for a new card:
`step = 0`, `interval = 0`, `ease_factor = 2.5`, `next_review = now`,
`review_count = 0`. -/
def freshFlashcard (now : ℚ) : FlashcardSchedule :=
  { step := 0, interval := 0, ease_factor := 5/2, next_review := now, review_count := 0 }

/-- `update_flashcard_schedule` (`backend/db.py`): the simplified SM-2 update
applied to the stored fields for one review event of the given recall
`quality`, evaluated at time `now` (in days).  The `$inc` of `review_count`
and the `next_review = utcnow() + timedelta(days=interval)` write are part of
the same update. -/
def update_flashcard_schedule (card : FlashcardSchedule) (quality : ℤ) (now : ℚ) :
    FlashcardSchedule :=
  if 3 ≤ quality then
    let interval' : ℤ :=
      if card.step = 0 then 1
      else if card.step = 1 then 6
      else pyRound ((card.interval : ℚ) * card.ease_factor)
    let step' : ℕ := if card.step = 0 then 1 else if card.step = 1 then 2 else card.step + 1
    let ease' : ℚ :=
      max (13/10)
        (card.ease_factor +
          (1/10 - (5 - (quality : ℚ)) * (8/100 + (5 - (quality : ℚ)) * (2/100))))
    { step := step', interval := interval', ease_factor := ease',
      next_review := now + (interval' : ℚ), review_count := card.review_count + 1 }
  else
    { step := 0, interval := 1, ease_factor := card.ease_factor,
      next_review := now + 1, review_count := card.review_count + 1 }

/-- Apply a finite sequence of review events `(quality, time)` in order. -/
def applySchedule (card : FlashcardSchedule) : List (ℤ × ℚ) → FlashcardSchedule
  | [] => card
  | (q, t) :: rest => applySchedule (update_flashcard_schedule card q t) rest

lemma ease_floor_step (card : FlashcardSchedule) (q : ℤ) (t : ℚ)
    (h : 13/10 ≤ card.ease_factor) :
    13/10 ≤ (update_flashcard_schedule card q t).ease_factor := by
  unfold update_flashcard_schedule
  split
  · exact le_max_left _ _
  · exact h

lemma ease_fail_step (card : FlashcardSchedule) (q : ℤ) (t : ℚ) (hq : q < 3) :
    (update_flashcard_schedule card q t).ease_factor = card.ease_factor := by
  unfold update_flashcard_schedule
  rw [if_neg (by omega)]

lemma applySchedule_ease_floor (events : List (ℤ × ℚ)) :
    ∀ card : FlashcardSchedule, 13/10 ≤ card.ease_factor →
      13/10 ≤ (applySchedule card events).ease_factor := by
  induction events with
  | nil => intro card h; exact h
  | cons e rest ih =>
      intro card h
      exact ih _ (ease_floor_step card e.1 e.2 h)

lemma applySchedule_zero_ease (n : ℕ) (t : ℚ) :
    ∀ card : FlashcardSchedule,
      (applySchedule card (List.replicate n ((0 : ℤ), t))).ease_factor = card.ease_factor := by
  induction n with
  | zero => intro card; rfl
  | succ m ih =>
      intro card
      rw [List.replicate_succ]
      show (applySchedule (update_flashcard_schedule card 0 t) _).ease_factor = _
      rw [ih, ease_fail_step card 0 t (by omega)]

/-- C3: a single scheduler update.  With `quality < 3` it resets `step` to 0
and `interval` to 1 day and leaves `ease_factor` unchanged; with
`quality ≥ 3` it increments `step`, sets `interval` to 1 day on the first
successful repetition (`step = 0`), 6 days on the second (`step = 1`), and
otherwise `round(previous_interval × previous ease_factor)`, then adds
`0.1 − (5−quality)·(0.08 + (5−quality)·0.02)` to `ease_factor` floored at
1.3; in every case `next_review` is the evaluation time plus the new
interval in days, and `review_count` increments by exactly 1. -/
theorem C3_scheduler_update (card : FlashcardSchedule) (q : ℤ) (now : ℚ) :
    ((q < 3 →
        (update_flashcard_schedule card q now).step = 0 ∧
        (update_flashcard_schedule card q now).interval = 1 ∧
        (update_flashcard_schedule card q now).ease_factor = card.ease_factor) ∧
     (3 ≤ q →
        (update_flashcard_schedule card q now).step = card.step + 1 ∧
        (card.step = 0 → (update_flashcard_schedule card q now).interval = 1) ∧
        (card.step = 1 → (update_flashcard_schedule card q now).interval = 6) ∧
        (2 ≤ card.step →
          (update_flashcard_schedule card q now).interval =
            pyRound ((card.interval : ℚ) * card.ease_factor)) ∧
        (update_flashcard_schedule card q now).ease_factor =
          max (13/10)
            (card.ease_factor +
              (1/10 - (5 - (q : ℚ)) * (8/100 + (5 - (q : ℚ)) * (2/100)))))) ∧
    (update_flashcard_schedule card q now).next_review =
      now + ((update_flashcard_schedule card q now).interval : ℚ) ∧
    (update_flashcard_schedule card q now).review_count = card.review_count + 1 := by
  unfold update_flashcard_schedule
  by_cases hq : 3 ≤ q
  · rw [if_pos hq]
    refine ⟨⟨fun h => absurd hq (by omega), fun _ => ?_⟩, by simp, rfl⟩
    refine ⟨?_, fun h0 => by simp [h0], fun h1 => by simp [h1], fun h2 => ?_, rfl⟩
    · by_cases h0 : card.step = 0
      · simp [h0]
      · by_cases h1 : card.step = 1 <;> simp [h0, h1]
    · have h0 : ¬ card.step = 0 := by omega
      have h1 : ¬ card.step = 1 := by omega
      simp [h0, h1]
  · rw [if_neg hq]
    exact ⟨⟨fun _ => ⟨rfl, rfl, rfl⟩, fun h => absurd h hq⟩, by norm_num, rfl⟩

/-- Witness for C3 at a concrete state (`step = 2`, `interval = 6`,
`ease = 2.7`) and at `quality = 5` / `quality = 0`. -/
theorem C3_scheduler_update_witness :
    (update_flashcard_schedule ⟨2, 6, 27/10, 0, 2⟩ 5 0).interval =
      pyRound ((6 : ℚ) * (27/10)) ∧
    (update_flashcard_schedule ⟨2, 6, 27/10, 0, 2⟩ 5 0).step = 3 ∧
    (update_flashcard_schedule ⟨2, 6, 27/10, 0, 2⟩ 0 0).interval = 1 ∧
    (update_flashcard_schedule ⟨2, 6, 27/10, 0, 2⟩ 0 0).ease_factor = 27/10 :=
  ⟨((C3_scheduler_update ⟨2, 6, 27/10, 0, 2⟩ 5 0).1.2 (by decide)).2.2.2.1 (by decide),
   ((C3_scheduler_update ⟨2, 6, 27/10, 0, 2⟩ 5 0).1.2 (by decide)).1,
   ((C3_scheduler_update ⟨2, 6, 27/10, 0, 2⟩ 0 0).1.1 (by decide)).2.1,
   ((C3_scheduler_update ⟨2, 6, 27/10, 0, 2⟩ 0 0).1.1 (by decide)).2.2⟩

/-- C5: for every schedule state with `ease_factor ≥ 1.3` (the freshly created
state has `ease_factor = 2.5 ≥ 1.3`) and every finite sequence of review
events, the scheduler preserves `ease_factor ≥ 1.3`; and any number of
consecutive `quality = 0` events leaves `ease_factor` exactly unchanged. -/
theorem C5_ease_floor (card : FlashcardSchedule) (h : 13/10 ≤ card.ease_factor) :
    (∀ events : List (ℤ × ℚ), 13/10 ≤ (applySchedule card events).ease_factor) ∧
    (∀ (n : ℕ) (t : ℚ),
      (applySchedule card (List.replicate n ((0 : ℤ), t))).ease_factor = card.ease_factor) ∧
    (∀ t : ℚ, 13/10 ≤ (freshFlashcard t).ease_factor) :=
  ⟨fun events => applySchedule_ease_floor events card h,
   fun n t => applySchedule_zero_ease n t card,
   fun _ => by norm_num [freshFlashcard]⟩

/-- Witness for C5: the fresh card run through reviews of quality 5, 0, 3 keeps
`ease_factor ≥ 1.3`, and ten straight failures leave its ease at 2.5. -/
theorem C5_ease_floor_witness :
    13/10 ≤ (applySchedule (freshFlashcard 0) [(5, 1), (0, 2), (3, 3)]).ease_factor ∧
    (applySchedule (freshFlashcard 0) (List.replicate 10 ((0 : ℤ), (1 : ℚ)))).ease_factor
      = (freshFlashcard 0).ease_factor :=
  ⟨(C5_ease_floor (freshFlashcard 0) (by norm_num [freshFlashcard])).1 [(5, 1), (0, 2), (3, 3)],
   (C5_ease_floor (freshFlashcard 0) (by norm_num [freshFlashcard])).2.1 10 1⟩

/-- C6: from the freshly created state, three `quality = 5` reviews give
intervals exactly 1, then 6, then `round(6 × e₂)` where `e₂` is the ease
factor after the second update, with the ease factor monotonically
non-decreasing; and after any history a single `quality = 0` review resets
`interval` to 1 and `step` to 0 leaving `ease_factor` unchanged. -/
theorem C6_round_trip (t0 t1 t2 t3 : ℚ) :
    ((applySchedule (freshFlashcard t0) [(5, t1)]).interval = 1 ∧
     (applySchedule (freshFlashcard t0) [(5, t1), (5, t2)]).interval = 6 ∧
     (applySchedule (freshFlashcard t0) [(5, t1), (5, t2), (5, t3)]).interval =
       pyRound ((6 : ℚ) *
         (applySchedule (freshFlashcard t0) [(5, t1), (5, t2)]).ease_factor) ∧
     (freshFlashcard t0).ease_factor ≤
       (applySchedule (freshFlashcard t0) [(5, t1)]).ease_factor ∧
     (applySchedule (freshFlashcard t0) [(5, t1)]).ease_factor ≤
       (applySchedule (freshFlashcard t0) [(5, t1), (5, t2)]).ease_factor ∧
     (applySchedule (freshFlashcard t0) [(5, t1), (5, t2)]).ease_factor ≤
       (applySchedule (freshFlashcard t0) [(5, t1), (5, t2), (5, t3)]).ease_factor) ∧
    (∀ (hist : List (ℤ × ℚ)) (t : ℚ),
      (update_flashcard_schedule (applySchedule (freshFlashcard t0) hist) 0 t).interval = 1 ∧
      (update_flashcard_schedule (applySchedule (freshFlashcard t0) hist) 0 t).step = 0 ∧
      (update_flashcard_schedule (applySchedule (freshFlashcard t0) hist) 0 t).ease_factor =
        (applySchedule (freshFlashcard t0) hist).ease_factor) := by
  constructor
  · norm_num [applySchedule, freshFlashcard, update_flashcard_schedule, pyRound]
  · intro hist t
    unfold update_flashcard_schedule
    norm_num

/-! ## Python string primitives (ASCII model, `List Char`) -/

/-- Python strings modelled as lists of characters. -/
abbrev Str := List Char

/-- The whitespace characters recognised by `str.strip()` / `str.split()` and
by the regex class `\s` (ASCII range). -/
def pyIsSpace (c : Char) : Bool :=
  c = ' ' || c = '\t' || c = '\n' || c = '\r' || c = '\x0b' || c = '\x0c'

/-- The regex word class `\w` (ASCII range): letters, digits, underscore. -/
def isWordChar (c : Char) : Bool :=
  c.isAlphanum || c = '_'

/-- The single-quote character. -/
def singleQuote : Char := Char.ofNat 39

/-- The characters stripped by `.strip('",.')` in the handler. -/
def isQuotePunct (c : Char) : Bool :=
  c = '"' || c = ',' || c = '.'

/-- `str.strip()`: drop leading and trailing whitespace. -/
def pyStrip (s : Str) : Str :=
  ((s.dropWhile pyIsSpace).reverse.dropWhile pyIsSpace).reverse

/-- `.strip('",.')`: drop leading and trailing quote/comma/period characters. -/
def stripPunct (s : Str) : Str :=
  ((s.dropWhile isQuotePunct).reverse.dropWhile isQuotePunct).reverse

/-- `s.split()[0]` for a string with a non-whitespace character: the first
maximal whitespace-free run. -/
def firstToken (s : Str) : Str :=
  (s.dropWhile pyIsSpace).takeWhile (fun c => !pyIsSpace c)

/-- Python `pat in s`: substring containment. -/
def hasSubstr (pat : Str) : Str → Bool
  | [] => pat.isEmpty
  | s@(_ :: rest) => pat.isPrefixOf s || hasSubstr pat rest

/-- The suffix after the first occurrence of `pat` (`none` when `pat` does not
occur). -/
def afterFirst (pat : Str) : Str → Option Str
  | [] => if pat.isEmpty then some [] else none
  | s@(_ :: rest) => if pat.isPrefixOf s then some (s.drop pat.length) else afterFirst pat rest

/-- The prefix before the first occurrence of `pat` (the whole string when
`pat` does not occur).  `s.split(pat)[0]`, and, applied to `afterFirst`'s
result, `s.split(pat)[1]`. -/
def upToFirst (pat : Str) : Str → Str
  | [] => []
  | s@(c :: rest) => if pat.isPrefixOf s then [] else c :: upToFirst pat rest

/-- `str.capitalize()`: first character upper-cased, the rest lower-cased. -/
def pyCapitalize : Str → Str
  | [] => []
  | c :: rest => c.toUpper :: rest.map Char.toLower

/-! ## Diagnostic completion detection (`backend/app.py`, `diagnostic_chat`) -/

/-- The completion sentinel token. -/
def sentinel : Str := "DIAGNOSTIC_COMPLETE".data

/-- The sentinel with its level separator, the split separator of pattern 1. -/
def sentinelColon : Str := "DIAGNOSTIC_COMPLETE:".data

def beginnerS : Str := "Beginner".data
def intermediateS : Str := "Intermediate".data
def advancedS : Str := "Advanced".data

/-- The three valid levels accepted by the `submit_diagnostic` tool. -/
def validLevels : List Str := [beginnerS, intermediateS, advancedS]

/-- `submit_diagnostic` (`backend/tools/diagnostic_tools.py`): validates the
level against the three valid values, falling back to `Beginner`, and returns
the sentinel signal string.  The `gaps` argument does not affect the
result. -/
def submit_diagnostic (mastery_level : Str) (gaps : Str) : Str :=
  let lvl := if mastery_level ∈ validLevels then mastery_level else beginnerS
  let _ := gaps
  sentinelColon ++ lvl

/-- Match `pat` case-insensitively as a prefix, returning the rest. -/
def stripPrefixCI (pat : Str) (s : Str) : Option Str :=
  match pat, s with
  | [], rest => some rest
  | _ :: _, [] => none
  | p :: ps, c :: cs => if p.toLower = c.toLower then stripPrefixCI ps cs else none

/-- Skip the regex `\s*`. -/
def skipSpaces (s : Str) : Str := s.dropWhile pyIsSpace

/-- Consume one expected literal character. -/
def expectChar (c : Char) : Str → Option Str
  | c2 :: rest => if c2 = c then some rest else none
  | [] => none

/-- Consume the optional quote of the regex `["\']?`. -/
def optQuote : Str → Str
  | s@(c :: rest) => if c = '"' ∨ c = singleQuote then rest else s
  | [] => []

/-- Attempt the pattern
`submit_diagnostic\s*\(\s*mastery_level\s*=\s*["\']?(\w+)["\']?\s*\)`
(with `re.IGNORECASE`) anchored at the head of `s`, returning the captured
group.  Since the word class is disjoint from quotes, whitespace and `)`,
the regex engine's backtracking coincides with this greedy scan. -/
def matchSubmitAt (s : Str) : Option Str :=
  match stripPrefixCI "submit_diagnostic".data s with
  | none => none
  | some s1 =>
    match expectChar '(' (skipSpaces s1) with
    | none => none
    | some s2 =>
      match stripPrefixCI "mastery_level".data (skipSpaces s2) with
      | none => none
      | some s3 =>
        match expectChar '=' (skipSpaces s3) with
        | none => none
        | some s4 =>
          let s5 := optQuote (skipSpaces s4)
          let g := s5.takeWhile isWordChar
          if g.isEmpty then none
          else
            match expectChar ')' (skipSpaces (optQuote (s5.drop g.length))) with
            | none => none
            | some _ => some g

/-- `re.search` for the tool-call pattern: leftmost match wins. -/
def reSearchSubmit : Str → Option Str
  | [] => none
  | s@(_ :: rest) =>
    match matchSubmitAt s with
    | some g => some g
    | none => reSearchSubmit rest

/-- The level extracted by pattern 1 once the sentinel is known to occur:
`parts = text.split("DIAGNOSTIC_COMPLETE:")`; when `len(parts) > 1`, take the
first whitespace token of `parts[1].strip()` and strip `'",.'` from it,
defaulting to `Beginner` when `parts[1]` strips to nothing or the colon form
never occurs. -/
def pattern1Level (text : Str) : Str :=
  match afterFirst sentinelColon text with
  | none => beginnerS
  | some suffix =>
    let part1 := upToFirst sentinelColon suffix
    let stripped := pyStrip part1
    if stripped.isEmpty then beginnerS
    else stripPunct (firstToken stripped)

/-- The outcome of the completion check in `diagnostic_chat`. -/
structure DetectResult where
  is_complete : Bool
  mastery_level : Str
deriving DecidableEq, Repr

/-- Steps 2 of `diagnostic_chat` (`backend/app.py` lines 1041–1058): start
from `is_complete = False`, `mastery_level = "Beginner"`; pattern 1 fires on
the bare sentinel substring and reads the label after the first
`DIAGNOSTIC_COMPLETE:`; pattern 2, checked second, fires on the tool-call
regex and overwrites the level with the capitalized captured group. -/
def detectCompletion (response_text : Str) : DetectResult :=
  let p1 := hasSubstr sentinel response_text
  let lvl1 := if p1 then pattern1Level response_text else beginnerS
  match reSearchSubmit response_text with
  | some g => ⟨true, pyCapitalize g⟩
  | none => ⟨p1, lvl1⟩

/-- Step 4 of `diagnostic_chat` (lines 1098–1100): the chatting message is the
response with everything from the first sentinel occurrence on removed and
the rest whitespace-stripped; a sentinel-free response is passed through. -/
def cleanResponse (text : Str) : Str :=
  if hasSubstr sentinel text then pyStrip (upToFirst sentinel text) else text

lemma sentinel_is_complete (t : Str) (h : hasSubstr sentinel t = true) :
    (detectCompletion t).is_complete = true := by
  unfold detectCompletion
  cases hr : reSearchSubmit t <;> simp [hr, h]

lemma no_pattern_not_complete (t : Str) (h1 : hasSubstr sentinel t = false)
    (h2 : reSearchSubmit t = none) :
    detectCompletion t = ⟨false, beginnerS⟩ := by
  unfold detectCompletion
  simp [h1, h2]

/-- C1 fails on the code: the handler does not normalize the matched label to
the three valid values; `DIAGNOSTIC_COMPLETE:Expert` is detected as complete
with resolved level `Expert`, not `Beginner`. -/
theorem C1_counterexample :
    detectCompletion "DIAGNOSTIC_COMPLETE:Expert".data =
      ⟨true, "Expert".data⟩ ∧
    "Expert".data ∉ validLevels ∧ "Expert".data ≠ beginnerS := by
  refine ⟨by decide, by decide, by decide⟩

/-- C1 amended: the handler adopts the matched label verbatim (after the
punctuation strip / capitalization of the matching pattern) — e.g. `Expert`
resolves to `Expert`; its `Beginner` default applies only when the sentinel
appears without an extractable label.  Normalization to the three values
{Beginner, Intermediate, Advanced} with `Beginner` fallback happens only in
the `submit_diagnostic` tool itself. -/
theorem C1_amended :
    (∀ lvl gaps : Str, lvl ∉ validLevels →
      submit_diagnostic lvl gaps = sentinelColon ++ beginnerS) ∧
    (∀ lvl gaps : Str, lvl ∈ validLevels →
      submit_diagnostic lvl gaps = sentinelColon ++ lvl) ∧
    detectCompletion sentinel = ⟨true, beginnerS⟩ ∧
    detectCompletion "DIAGNOSTIC_COMPLETE:Expert".data = ⟨true, "Expert".data⟩ := by
  refine ⟨?_, ?_, by decide, by decide⟩
  · intro lvl gaps h
    unfold submit_diagnostic
    rw [if_neg h]
  · intro lvl gaps h
    unfold submit_diagnostic
    rw [if_pos h]

/-- Witness for C1 amended: the tool at the invalid label `Expert` and at the
valid label `Advanced`. -/
theorem C1_amended_witness :
    submit_diagnostic "Expert".data [] = sentinelColon ++ beginnerS ∧
    submit_diagnostic "Advanced".data [] = sentinelColon ++ "Advanced".data :=
  ⟨C1_amended.1 "Expert".data [] (by decide),
   C1_amended.2.1 "Advanced".data [] (by decide)⟩

/-- C4 fails as a universal statement: a text containing
`DIAGNOSTIC_COMPLETE:Advanced` need not resolve level `Advanced` — word
characters adjacent to the label are absorbed into it. -/
theorem C4_counterexample :
    hasSubstr "DIAGNOSTIC_COMPLETE:Advanced".data
      "DIAGNOSTIC_COMPLETE:Advancedish".data = true ∧
    (detectCompletion "DIAGNOSTIC_COMPLETE:Advancedish".data).is_complete = true ∧
    (detectCompletion "DIAGNOSTIC_COMPLETE:Advancedish".data).mastery_level ≠ advancedS := by
  refine ⟨by decide, by decide, by decide⟩

/-- C4 amended: the representative inputs behave as stated — the sentinel with
a delimited `Advanced` label resolves `(complete, Advanced)`; a text whose
tool-call match is `submit_diagnostic(mastery_level="intermediate")`, in any
letter case, resolves `(complete, Intermediate)`; and every text containing
neither the sentinel substring nor a tool-call match is not detected as
completion (result `(false, Beginner)`, so the session stays chatting).  The
universal form fails when word characters directly abut the label (see the
counterexample) or when another match precedes. -/
theorem C4_amended :
    detectCompletion "...DIAGNOSTIC_COMPLETE:Advanced...".data = ⟨true, advancedS⟩ ∧
    detectCompletion "Let me check. submit_diagnostic(mastery_level=\"intermediate\")".data
      = ⟨true, intermediateS⟩ ∧
    detectCompletion "SUBMIT_DIAGNOSTIC(MASTERY_LEVEL=\"INTERMEDIATE\")".data
      = ⟨true, intermediateS⟩ ∧
    (∀ t : Str, hasSubstr sentinel t = false → reSearchSubmit t = none →
      detectCompletion t = ⟨false, beginnerS⟩) := by
  refine ⟨by decide, by decide, by decide, ?_⟩
  intro t h1 h2
  exact no_pattern_not_complete t h1 h2

/-- Witness for C4 amended: the pattern-free text `Tell me more about monads`
is not detected as completion. -/
theorem C4_amended_witness :
    detectCompletion "Tell me more about monads".data = ⟨false, beginnerS⟩ :=
  C4_amended.2.2.2 "Tell me more about monads".data (by decide) (by decide)

/-- C10: whenever the tool-call pattern matches (in particular when the
sentinel also matched with a different label), the resolved level is the
capitalized group of the tool-call match, because that pattern is evaluated
second and overwrites the sentinel-derived level. -/
theorem C10_tool_call_wins (text g : Str) (h : reSearchSubmit text = some g) :
    detectCompletion text = ⟨true, pyCapitalize g⟩ := by
  unfold detectCompletion
  simp [h]

/-- Witness for C10: a response matching the sentinel with label `Advanced`
and the tool call with label `beginner` resolves `Beginner`. -/
theorem C10_tool_call_wins_witness :
    hasSubstr sentinel
      "DIAGNOSTIC_COMPLETE:Advanced submit_diagnostic(mastery_level=\"beginner\")".data
      = true ∧
    pattern1Level
      "DIAGNOSTIC_COMPLETE:Advanced submit_diagnostic(mastery_level=\"beginner\")".data
      = advancedS ∧
    detectCompletion
      "DIAGNOSTIC_COMPLETE:Advanced submit_diagnostic(mastery_level=\"beginner\")".data
      = ⟨true, "Beginner".data⟩ := by
  refine ⟨by decide, by decide, ?_⟩
  rw [C10_tool_call_wins _ "beginner".data (by decide)]
  decide

/-! ## Job registry (`backend/app.py`, `job_queue` and its operations) -/

/-- First-match lookup in an association map keyed by strings (the Python
dicts `job_queue` and `active_sessions`). -/
def lookupK {α : Type} (k : Str) : List (Str × α) → Option α
  | [] => none
  | (k2, v) :: rest => if k2 = k then some v else lookupK k rest

/-- Remove a key (`del m[k]`). -/
def eraseKey {α : Type} (k : Str) (m : List (Str × α)) : List (Str × α) :=
  m.filter (fun p => decide (p.1 ≠ k))

/-- Overwrite a key (`m[k] = v`). -/
def insertK {α : Type} (k : Str) (v : α) (m : List (Str × α)) : List (Str × α) :=
  (k, v) :: eraseKey k m

lemma lookupK_eraseKey_self {α : Type} (k : Str) (m : List (Str × α)) :
    lookupK k (eraseKey k m) = none := by
  induction m with
  | nil => rfl
  | cons p rest ih =>
      by_cases hp : p.1 = k
      · simpa [eraseKey, hp] using ih
      · simpa [eraseKey, lookupK, hp] using ih

lemma lookupK_insertK_self {α : Type} (k : Str) (v : α) (m : List (Str × α)) :
    lookupK k (insertK k v m) = some v := by
  simp [insertK, lookupK]

inductive JobStatus where
  | pending
  | completed
  | failed
deriving DecidableEq, Repr

/-- A `job_queue` entry.  `result` is the opaque payload; timestamps are
abstract ticks. -/
structure Job where
  status : JobStatus
  result : Option Str
  error : Option Str
  created_at : ℕ
  completed_at : Option ℕ
deriving DecidableEq, Repr

/-- The record `create_job` (`backend/app.py`) writes. -/
def newJob (now : ℕ) : Job :=
  { status := .pending, result := none, error := none, created_at := now, completed_at := none }

/-- `create_job`: register a fresh pending job under the generated id. -/
def create_job (jid : Str) (now : ℕ) (jobs : List (Str × Job)) : List (Str × Job) :=
  insertK jid (newJob now) jobs

/-- Python truthiness of the optional `error` string: `None` and the empty
string are falsy (`"failed" if error else "completed"`). -/
def truthy : Option Str → Bool
  | none => false
  | some s => !s.isEmpty

/-- `complete_job`: when the id is registered, overwrite status (`failed` iff
`error` is truthy), `result`, `error` and `completed_at`; otherwise no-op. -/
def complete_job (jid : Str) (result : Option Str) (error : Option Str) (now : ℕ)
    (jobs : List (Str × Job)) : List (Str × Job) :=
  match lookupK jid jobs with
  | none => jobs
  | some j =>
    insertK jid
      { j with status := if truthy error then .failed else .completed,
               result := result, error := error, completed_at := some now } jobs

/-- The response shape of `get_job_status`: `result` is reported only for a
completed job, `error` only for a failed one. -/
structure JobStatusView where
  job_id : Str
  status : JobStatus
  created_at : ℕ
  completed_at : Option ℕ
  result : Option Str
  error : Option Str
deriving DecidableEq, Repr

/-- `get_job_status` (`backend/app.py`): `none` models the 404 branch. -/
def get_job_status (jid : Str) (jobs : List (Str × Job)) : Option JobStatusView :=
  match lookupK jid jobs with
  | none => none
  | some j =>
    some { job_id := jid, status := j.status, created_at := j.created_at,
           completed_at := j.completed_at,
           result := if j.status = .completed then j.result else none,
           error := if j.status = .failed then j.error else none }

/-! ## Background workers (`process_syllabus_job`, `process_topic_planner_job`) -/

/-- The agent call inside a worker either yields the response text or raises
an exception whose text is `msg` (the `except Exception as e` boundary of the
worker wraps the whole body). -/
inductive AgentOutcome where
  | ok (text : Str)
  | exn (msg : Str)
deriving DecidableEq, Repr

/-- The diagnostic error recorded on a JSON parse failure:
`f"Failed to parse JSON. Raw: {text[:300]}"`. -/
def parseErrorMsg (raw : Str) : Str :=
  "Failed to parse JSON. Raw: ".data ++ raw.take 300

/-- `process_syllabus_job`: run the agent, parse its text with
`clean_and_parse_json` (abstracted as the `parsed` argument, which also
covers the `journey_id` default), and complete the job accordingly; any
exception is caught and recorded through `complete_job`. -/
def process_syllabus_job (parsed : Str → Option Str) (out : AgentOutcome) (jid : Str)
    (now : ℕ) (jobs : List (Str × Job)) : List (Str × Job) :=
  match out with
  | .exn e => complete_job jid none (some e) now jobs
  | .ok text =>
    match parsed text with
    | none => complete_job jid none (some (parseErrorMsg text)) now jobs
    | some data => complete_job jid (some data) none now jobs

/-- `process_topic_planner_job`: identical failure structure to the syllabus
worker (the prompt differs, which the model abstracts away). -/
def process_topic_planner_job (parsed : Str → Option Str) (out : AgentOutcome) (jid : Str)
    (now : ℕ) (jobs : List (Str × Job)) : List (Str × Job) :=
  match out with
  | .exn e => complete_job jid none (some e) now jobs
  | .ok text =>
    match parsed text with
    | none => complete_job jid none (some (parseErrorMsg text)) now jobs
    | some data => complete_job jid (some data) none now jobs

lemma parseErrorMsg_ne_nil (raw : Str) : parseErrorMsg raw ≠ [] := by
  unfold parseErrorMsg
  intro h
  have h2 : "Failed to parse JSON. Raw: ".data = [] := (List.append_eq_nil.mp h).1
  simp at h2

lemma truthy_some_of_ne_nil (s : Str) (h : s ≠ []) : truthy (some s) = true := by
  cases s with
  | nil => exact absurd rfl h
  | cons c r => rfl

lemma complete_job_lookup (jid : Str) (r e : Option Str) (now : ℕ)
    (jobs : List (Str × Job)) (j : Job) (h : lookupK jid jobs = some j) :
    lookupK jid (complete_job jid r e now jobs)
      = some { j with status := if truthy e then .failed else .completed,
                      result := r, error := e, completed_at := some now } := by
  unfold complete_job
  rw [h, lookupK_insertK_self]

/-- The terminal-state property of a worker body: on a registered job id the
worker always leaves the entry terminal; an exception records its text as the
error (and yields `failed` whenever that text is nonempty); a parse failure
yields `failed` with the truncated excerpt; a parse success yields
`completed`. -/
def workerTerminal
    (worker : (Str → Option Str) → AgentOutcome → Str → ℕ → List (Str × Job) →
      List (Str × Job)) : Prop :=
  ∀ (parsed : Str → Option Str) (out : AgentOutcome) (jid : Str) (now : ℕ)
    (jobs : List (Str × Job)) (j : Job), lookupK jid jobs = some j →
    ((lookupK jid (worker parsed out jid now jobs)).map Job.status ≠ some JobStatus.pending) ∧
    ((lookupK jid (worker parsed out jid now jobs)).isSome = true) ∧
    (∀ e, out = .exn e →
      (lookupK jid (worker parsed out jid now jobs)).map Job.error = some (some e) ∧
      (e ≠ [] →
        (lookupK jid (worker parsed out jid now jobs)).map Job.status
          = some JobStatus.failed)) ∧
    (∀ text, out = .ok text → parsed text = none →
      (lookupK jid (worker parsed out jid now jobs)).map Job.status = some JobStatus.failed ∧
      (lookupK jid (worker parsed out jid now jobs)).map Job.error
        = some (some (parseErrorMsg text)) ∧
      (text.take 300).length ≤ 300) ∧
    (∀ text data, out = .ok text → parsed text = some data →
      (lookupK jid (worker parsed out jid now jobs)).map Job.status
        = some JobStatus.completed)

lemma workerTerminal_syllabus : workerTerminal process_syllabus_job := by
  intro parsed out jid now jobs j h
  cases out with
  | exn e =>
      have hw : lookupK jid (process_syllabus_job parsed (.exn e) jid now jobs)
          = some { j with status := if truthy (some e) then .failed else .completed,
                          result := none, error := some e, completed_at := some now } := by
        unfold process_syllabus_job
        exact complete_job_lookup jid none (some e) now jobs j h
      refine ⟨?_, ?_, ?_, ?_, ?_⟩
      · rw [hw]
        cases htr : truthy (some e) <;> simp [htr]
      · rw [hw]; rfl
      · intro e2 he2
        injection he2 with he3
        subst he3
        refine ⟨by rw [hw]; rfl, fun hne => ?_⟩
        rw [hw]
        simp [truthy_some_of_ne_nil e hne]
      · intro t2 ht2
        simp at ht2
      · intro t2 d ht2
        simp at ht2
  | ok text =>
      cases hp : parsed text with
      | none =>
          have hw : lookupK jid (process_syllabus_job parsed (.ok text) jid now jobs)
              = some { j with
                  status := if truthy (some (parseErrorMsg text)) then .failed else .completed,
                  result := none, error := some (parseErrorMsg text),
                  completed_at := some now } := by
            simp only [process_syllabus_job]
            rw [hp]
            exact complete_job_lookup jid none (some (parseErrorMsg text)) now jobs j h
          have htr : truthy (some (parseErrorMsg text)) = true :=
            truthy_some_of_ne_nil _ (parseErrorMsg_ne_nil text)
          refine ⟨?_, ?_, ?_, ?_, ?_⟩
          · rw [hw]; simp [htr]
          · rw [hw]; rfl
          · intro e2 he2
            simp at he2
          · intro t2 ht2 hp2
            injection ht2 with ht3
            subst ht3
            refine ⟨by rw [hw]; simp [htr], by rw [hw]; rfl, ?_⟩
            rw [List.length_take]
            exact min_le_left _ _
          · intro t2 d ht2 hp2
            injection ht2 with ht3
            subst ht3
            rw [hp] at hp2
            cases hp2
      | some data =>
          have hw : lookupK jid (process_syllabus_job parsed (.ok text) jid now jobs)
              = some { j with status := if truthy none then .failed else .completed,
                              result := some data, error := none,
                              completed_at := some now } := by
            simp only [process_syllabus_job]
            rw [hp]
            exact complete_job_lookup jid (some data) none now jobs j h
          refine ⟨?_, ?_, ?_, ?_, ?_⟩
          · rw [hw]; simp [truthy]
          · rw [hw]; rfl
          · intro e2 he2
            simp at he2
          · intro t2 ht2 hp2
            injection ht2 with ht3
            subst ht3
            rw [hp] at hp2
            cases hp2
          · intro t2 d ht2 hp2
            injection ht2 with ht3
            subst ht3
            rw [hp] at hp2
            injection hp2 with hd
            subst hd
            rw [hw]
            simp [truthy]

lemma workerTerminal_topic_planner : workerTerminal process_topic_planner_job :=
  workerTerminal_syllabus

/-- C7 fails on the code: `complete_job` overwrites unconditionally, so a
second call whose error argument differs in truthiness changes the stored
status read by `get_job_status` — here from `completed` to `failed`. -/
theorem C7_counterexample :
    (get_job_status "j1".data
        (complete_job "j1".data (some "r".data) none 1
          (create_job "j1".data 0 []))).map JobStatusView.status
      = some JobStatus.completed ∧
    (get_job_status "j1".data
        (complete_job "j1".data none (some "boom".data) 2
          (complete_job "j1".data (some "r".data) none 1
            (create_job "j1".data 0 [])))).map JobStatusView.status
      = some JobStatus.failed ∧
    some JobStatus.completed ≠ some JobStatus.failed := by
  refine ⟨by decide, by decide, by decide⟩

/-- C7 amended: the second `complete_job` call on a registered id overwrites
the entry, so the status afterwards is `failed` iff the second call's error
argument is truthy, independent of the first call; the statuses after the
first and second calls agree exactly when the two error arguments have the
same truthiness. -/
theorem C7_amended (jobs : List (Str × Job)) (jid : Str) (j : Job)
    (h : lookupK jid jobs = some j)
    (r1 e1 r2 e2 : Option Str) (t1 t2 : ℕ) :
    ((get_job_status jid (complete_job jid r2 e2 t2
        (complete_job jid r1 e1 t1 jobs))).map JobStatusView.status
      = some (if truthy e2 then JobStatus.failed else JobStatus.completed)) ∧
    ((get_job_status jid (complete_job jid r1 e1 t1 jobs)).map JobStatusView.status
      = some (if truthy e1 then JobStatus.failed else JobStatus.completed)) ∧
    (truthy e1 = truthy e2 →
      (get_job_status jid (complete_job jid r2 e2 t2
          (complete_job jid r1 e1 t1 jobs))).map JobStatusView.status
        = (get_job_status jid (complete_job jid r1 e1 t1 jobs)).map
            JobStatusView.status) := by
  have h1 := complete_job_lookup jid r1 e1 t1 jobs j h
  have h2 := complete_job_lookup jid r2 e2 t2 (complete_job jid r1 e1 t1 jobs) _ h1
  refine ⟨?_, ?_, ?_⟩
  · unfold get_job_status
    rw [h2]
    rfl
  · unfold get_job_status
    rw [h1]
    rfl
  · intro he
    unfold get_job_status
    rw [h1, h2, he]
    rfl

/-- Witness for C7 amended: two completed-style calls on a fresh job leave the
status `completed` both times. -/
theorem C7_amended_witness :
    (get_job_status "j1".data
        (complete_job "j1".data (some "s".data) none 2
          (complete_job "j1".data (some "r".data) none 1
            (create_job "j1".data 0 [])))).map JobStatusView.status
      = some JobStatus.completed ∧
    (get_job_status "j1".data
        (complete_job "j1".data (some "s".data) none 2
          (complete_job "j1".data (some "r".data) none 1
            (create_job "j1".data 0 [])))).map JobStatusView.status
      = (get_job_status "j1".data
          (complete_job "j1".data (some "r".data) none 1
            (create_job "j1".data 0 []))).map JobStatusView.status := by
  have h := C7_amended (create_job "j1".data 0 []) "j1".data (newJob 0) (by decide)
    (some "r".data) none (some "s".data) none 1 2
  exact ⟨by simpa [truthy] using h.1, h.2.2 rfl⟩

/-- C8 fails at one edge of the code: an exception whose text is empty is
recorded through `complete_job(job_id, None, "")`, and the Python truthiness
test `"failed" if error else "completed"` then marks the job `completed`,
not `failed` — though it is still terminal. -/
theorem C8_counterexample :
    (lookupK "j1".data
        (process_topic_planner_job (fun _ => none) (AgentOutcome.exn []) "j1".data 1
          (create_job "j1".data 0 []))).map Job.status
      = some JobStatus.completed ∧
    (lookupK "j1".data
        (process_topic_planner_job (fun _ => none) (AgentOutcome.exn []) "j1".data 1
          (create_job "j1".data 0 []))).map Job.error
      = some (some []) := by
  refine ⟨by decide, by decide⟩

/-- C8 amended: on a registered job id, every path of both worker bodies
leaves the job terminal (never `pending`): a caught exception records its
text as the job's error and yields status `failed` whenever that text is
nonempty (an empty exception text yields `completed` instead, by the
truthiness of `error`); a JSON parse failure yields a failed job whose error
is the fixed prefix plus the raw text truncated to at most 300 characters;
a parse success yields `completed`. -/
theorem C8_amended :
    workerTerminal process_syllabus_job ∧ workerTerminal process_topic_planner_job :=
  ⟨workerTerminal_syllabus, workerTerminal_topic_planner⟩

/-- Witness for C8 amended: a parse failure on a fresh topic-planner job
yields status `failed` with the truncated-excerpt error. -/
theorem C8_amended_witness :
    (lookupK "j1".data
        (process_topic_planner_job (fun _ => none) (AgentOutcome.ok "garbage".data)
          "j1".data 1 (create_job "j1".data 0 []))).map Job.status
      = some JobStatus.failed ∧
    (lookupK "j1".data
        (process_topic_planner_job (fun _ => none) (AgentOutcome.ok "garbage".data)
          "j1".data 1 (create_job "j1".data 0 []))).map Job.error
      = some (some (parseErrorMsg "garbage".data)) := by
  have h := C8_amended.2 (fun _ => none) (AgentOutcome.ok "garbage".data) "j1".data 1
    (create_job "j1".data 0 []) (newJob 0) (by decide)
  have h2 := h.2.2.2.1 "garbage".data rfl rfl
  exact ⟨h2.1, h2.2.1⟩

/-! ## Diagnostic handoff (`backend/app.py`, `diagnostic_chat`, lines 1041–1106) -/

/-- An `active_sessions` entry: the runner and ADK handle are opaque; the
topic string fixed at creation is the data the handoff consumes. -/
structure Session where
  topic : Str
deriving DecidableEq, Repr

/-- The JSON payload shapes `diagnostic_chat` can return after the response
text is obtained: the processing handoff, the 403 generation-limit error, or
the chatting continuation. -/
inductive DiagPayload where
  | processing (session_id job_id level message : Str)
  | limitError
  | chatting (session_id message : Str)
deriving DecidableEq, Repr

/-- `f"Diagnostic complete! Level: {level}. Generating personalized
journey..."` — a function of the resolved level only. -/
def processingMessage (level : Str) : Str :=
  "Diagnostic complete! Level: ".data ++ level ++ ". Generating personalized journey...".data

/-- The post-response effects of one `diagnostic_chat` turn: the session and
job stores afterwards, the task handed to the worker pool (job id, topic,
level), and the returned payload. -/
structure HandoffResult where
  sessions : List (Str × Session)
  jobs : List (Str × Job)
  submitted : Option (Str × Str × Str)
  payload : DiagPayload
deriving DecidableEq, Repr

/-- Steps 2–4 of `diagnostic_chat` given the agent response text: run the
completion detection; on completion delete the session, then either (limit
allowing) create and submit the planning job and return the processing
payload, or return the 403 limit error; otherwise return the chatting
payload with the cleaned response. -/
def diagnostic_chat_step (sessions : List (Str × Session)) (jobs : List (Str × Job))
    (sid topic : Str) (response_text : Str) (allowed : Bool) (jid : Str) (now : ℕ) :
    HandoffResult :=
  let d := detectCompletion response_text
  if d.is_complete then
    let sessions2 := eraseKey sid sessions
    if allowed then
      { sessions := sessions2, jobs := create_job jid now jobs,
        submitted := some (jid, topic, d.mastery_level),
        payload := .processing sid jid d.mastery_level (processingMessage d.mastery_level) }
    else
      { sessions := sessions2, jobs := jobs, submitted := none, payload := .limitError }
  else
    { sessions := sessions, jobs := jobs, submitted := none,
      payload := .chatting sid (cleanResponse response_text) }

/-- Whether a payload is the chatting shape. -/
def isChattingPayload : DiagPayload → Bool
  | .chatting _ _ => true
  | _ => false

/-- C2 fails on the code: when the caller's generation limit is exhausted the
completion turn still deletes the session but creates no job and returns the
limit error, so the three effects do not always occur together. -/
theorem C2_counterexample :
    (detectCompletion "DIAGNOSTIC_COMPLETE:Advanced".data).is_complete = true ∧
    lookupK "s1".data
      (diagnostic_chat_step (insertK "s1".data ⟨"algebra".data⟩ []) [] "s1".data
        "algebra".data "DIAGNOSTIC_COMPLETE:Advanced".data false "j1".data 0).sessions
      = none ∧
    (diagnostic_chat_step (insertK "s1".data ⟨"algebra".data⟩ []) [] "s1".data
        "algebra".data "DIAGNOSTIC_COMPLETE:Advanced".data false "j1".data 0).submitted
      = none ∧
    (diagnostic_chat_step (insertK "s1".data ⟨"algebra".data⟩ []) [] "s1".data
        "algebra".data "DIAGNOSTIC_COMPLETE:Advanced".data false "j1".data 0).jobs
      = [] ∧
    (diagnostic_chat_step (insertK "s1".data ⟨"algebra".data⟩ []) [] "s1".data
        "algebra".data "DIAGNOSTIC_COMPLETE:Advanced".data false "j1".data 0).payload
      = DiagPayload.limitError := by
  refine ⟨by decide, by decide, by decide, by decide, by decide⟩

/-- C2 amended: on every completion detected on a known session the session
entry is deleted; when the generation limit allows, additionally a fresh
pending job is created, the (topic, level) pair is submitted with the job id
to the planning worker, and the payload reports the job id and the resolved
level through a fixed message template — the whole turn depends on the raw
agent text only through the detection result, so the raw text never appears
in the payload; when the limit is exhausted no job is created and the limit
error is returned instead. -/
theorem C2_amended (sessions : List (Str × Session)) (jobs : List (Str × Job))
    (sid topic text jid : Str) (now : ℕ) (allowed : Bool)
    (hs : lookupK sid sessions = some ⟨topic⟩)
    (hc : (detectCompletion text).is_complete = true) :
    lookupK sid (diagnostic_chat_step sessions jobs sid topic text allowed jid now).sessions
      = none ∧
    (allowed = true →
      (diagnostic_chat_step sessions jobs sid topic text allowed jid now).jobs
        = create_job jid now jobs ∧
      lookupK jid (diagnostic_chat_step sessions jobs sid topic text allowed jid now).jobs
        = some (newJob now) ∧
      (newJob now).status = JobStatus.pending ∧
      (diagnostic_chat_step sessions jobs sid topic text allowed jid now).submitted
        = some (jid, topic, (detectCompletion text).mastery_level) ∧
      (diagnostic_chat_step sessions jobs sid topic text allowed jid now).payload
        = DiagPayload.processing sid jid (detectCompletion text).mastery_level
            (processingMessage (detectCompletion text).mastery_level)) ∧
    (allowed = false →
      (diagnostic_chat_step sessions jobs sid topic text allowed jid now).jobs = jobs ∧
      (diagnostic_chat_step sessions jobs sid topic text allowed jid now).submitted = none ∧
      (diagnostic_chat_step sessions jobs sid topic text allowed jid now).payload
        = DiagPayload.limitError) ∧
    (∀ t2 : Str, detectCompletion t2 = detectCompletion text →
      diagnostic_chat_step sessions jobs sid topic t2 allowed jid now
        = diagnostic_chat_step sessions jobs sid topic text allowed jid now) := by
  refine ⟨?_, ?_, ?_, ?_⟩
  · cases allowed <;>
      simp [diagnostic_chat_step, hc, lookupK_eraseKey_self]
  · intro ha
    subst ha
    refine ⟨?_, ?_, rfl, ?_, ?_⟩ <;>
      simp [diagnostic_chat_step, hc, create_job, lookupK_insertK_self]
  · intro ha
    subst ha
    refine ⟨?_, ?_, ?_⟩ <;> simp [diagnostic_chat_step, hc]
  · intro t2 h2
    simp [diagnostic_chat_step, h2, hc]

/-- Witness for C2 amended: a known session completing with level `Advanced`
under an available generation limit. -/
theorem C2_amended_witness :
    lookupK "s1".data
      (diagnostic_chat_step (insertK "s1".data ⟨"algebra".data⟩ []) [] "s1".data
        "algebra".data "DIAGNOSTIC_COMPLETE:Advanced".data true "j1".data 0).sessions
      = none ∧
    (diagnostic_chat_step (insertK "s1".data ⟨"algebra".data⟩ []) [] "s1".data
        "algebra".data "DIAGNOSTIC_COMPLETE:Advanced".data true "j1".data 0).submitted
      = some ("j1".data, "algebra".data, "Advanced".data) ∧
    (diagnostic_chat_step (insertK "s1".data ⟨"algebra".data⟩ []) [] "s1".data
        "algebra".data "DIAGNOSTIC_COMPLETE:Advanced".data true "j1".data 0).payload
      = DiagPayload.processing "s1".data "j1".data "Advanced".data
          (processingMessage "Advanced".data) := by
  have h := C2_amended (insertK "s1".data ⟨"algebra".data⟩ []) [] "s1".data "algebra".data
    "DIAGNOSTIC_COMPLETE:Advanced".data "j1".data 0 true (by decide) (by decide)
  refine ⟨h.1, ?_, ?_⟩
  · rw [(h.2.1 rfl).2.2.2.1]
    decide
  · rw [(h.2.1 rfl).2.2.2.2]
    decide

/-- C9: no text preceding a completion sentinel ever reaches the conversation
transcript — any response containing the sentinel substring is detected as
complete and therefore never produces a chatting payload at all; dually,
every chatting payload carries the response verbatim, and that response is
sentinel-free. -/
theorem C9_no_leak :
    (∀ text : Str, hasSubstr sentinel text = true →
      ∀ (sessions : List (Str × Session)) (jobs : List (Str × Job))
        (sid topic jid : Str) (now : ℕ) (allowed : Bool),
        isChattingPayload
          (diagnostic_chat_step sessions jobs sid topic text allowed jid now).payload
          = false) ∧
    (∀ (text : Str) (sessions : List (Str × Session)) (jobs : List (Str × Job))
        (sid topic jid : Str) (now : ℕ) (allowed : Bool) (msg : Str),
      (diagnostic_chat_step sessions jobs sid topic text allowed jid now).payload
        = DiagPayload.chatting sid msg →
      hasSubstr sentinel text = false ∧ msg = text) := by
  constructor
  · intro text h sessions jobs sid topic jid now allowed
    have hc := sentinel_is_complete text h
    cases allowed <;> simp [diagnostic_chat_step, hc, isChattingPayload]
  · intro text sessions jobs sid topic jid now allowed msg hp
    by_cases hc : (detectCompletion text).is_complete = true
    · cases allowed <;> simp [diagnostic_chat_step, hc] at hp
    · have hc2 : (detectCompletion text).is_complete = false := by
        simpa using hc
      have hsent : hasSubstr sentinel text = false := by
        cases hs : hasSubstr sentinel text
        · rfl
        · rw [sentinel_is_complete text hs] at hc2
          cases hc2
      simp [diagnostic_chat_step, hc2] at hp
      refine ⟨hsent, ?_⟩
      rw [← hp]
      unfold cleanResponse
      rw [hsent]
      simp

/-- Witness for C9: a response containing a partial-signal sentinel does not
produce a chatting payload. -/
theorem C9_no_leak_witness :
    isChattingPayload
      (diagnostic_chat_step [] [] "s1".data "algebra".data
        "Partial text DIAGNOSTIC_COMPLETE leak".data true "j1".data 0).payload
      = false :=
  C9_no_leak.1 "Partial text DIAGNOSTIC_COMPLETE leak".data (by decide)
    [] [] "s1".data "algebra".data "j1".data 0 true

end LearningCompanion
